import Mathlib

/-
Verification of the keystoneauth token-accessor module (keystoneauth/access.py)
against its specification.

The payload body is an already-parsed JSON-like value; Python runtime errors that
the module can raise or catch (KeyError, TypeError, AttributeError, ValueError)
are modelled explicitly, since the soft-vs-hard missing-field behaviour of the
accessors is exactly about which of these are caught.
-/

namespace Keystoneauth

/-- A parsed JSON-like payload value, as handed to the accessors: Python None,
strings, lists and string-keyed mappings.  Mapping entries keep their order;
lookups take the first binding of a key, as a Python dict has unique keys. -/
inductive JVal where
  | null
  | str (s : String)
  | list (xs : List JVal)
  | dict (entries : List (String × JVal))

/-- The Python exception kinds that appear in keystoneauth/access.py: KeyError
(missing mapping key), TypeError (subscripting a non-mapping, e.g. None),
AttributeError (calling a method the object does not define) and ValueError
(raised by the factory on an unrecognized payload). -/
inductive PyErr where
  | keyError
  | typeError
  | attributeError
  | valueError
deriving Repr, DecidableEq

namespace JVal

/-- Python truthiness of a payload value: None is falsy; strings, lists and
mappings are truthy exactly when non-empty. -/
def truthy : JVal → Bool
  | .null => false
  | .str s => !s.isEmpty
  | .list xs => !xs.isEmpty
  | .dict m => !m.isEmpty

/-- Python subscripting d[k] with a string key: on a mapping, the value or
KeyError; on anything else (None, a string, a list) a string key raises
TypeError. -/
def subscript : JVal → String → Except PyErr JVal
  | .dict m, k =>
    match m.lookup k with
    | some v => .ok v
    | none => .error .keyError
  | _, _ => .error .typeError

/-- Python d.get(k) with default None: on a mapping, the value or None; on a
non-mapping receiver the attribute lookup of get raises AttributeError. -/
def get : JVal → String → Except PyErr JVal
  | .dict m, k => .ok ((m.lookup k).getD .null)
  | _, _ => .error .attributeError

/-- Python membership k in d for a string key on a mapping body.  The accessors
only ever apply it to mapping payloads; on other receivers the model reports
TypeError (Python would instead do substring or element tests on strings and
lists, shapes no modelled payload reaches). -/
def hasKey : JVal → String → Except PyErr Bool
  | .dict m, k => .ok (m.lookup k).isSome
  | _, _ => .error .typeError

end JVal

/-- The missingproperty decorator (access.py lines 47-56): evaluates the wrapped
property body and converts a KeyError into a None result; every other outcome,
including TypeError and AttributeError, passes through unchanged. -/
def missingproperty (x : Except PyErr JVal) : Except PyErr JVal :=
  match x with
  | .error .keyError => .ok .null
  | y => y

namespace AccessInfoV2

/-- AccessInfoV2._token (access.py lines 377-379, a missingproperty): the value
of self._data at access, then token; a KeyError anywhere on that path becomes
None. -/
def _token (data : JVal) : Except PyErr JVal :=
  missingproperty
    (match data.subscript "access" with
     | .ok a => a.subscript "token"
     | .error e => .error e)

/-- AccessInfoV2._user (access.py lines 389-391, a plain property): the value of
self._data at access, then user; every lookup failure propagates. -/
def _user (data : JVal) : Except PyErr JVal :=
  match data.subscript "access" with
  | .ok a => a.subscript "user"
  | .error e => .error e

/-- AccessInfoV2.auth_token (access.py lines 372-375, a missingproperty over
the base-class property of lines 104-111): the explicitly stored token if it is
truthy, else self._data at access, token, id; a KeyError becomes None. -/
def auth_token (data set_token : JVal) : Except PyErr JVal :=
  missingproperty
    (if set_token.truthy then .ok set_token
     else
       match data.subscript "access" with
       | .error e => .error e
       | .ok a =>
         match a.subscript "token" with
         | .error e => .error e
         | .ok t => t.subscript "id")

/-- AccessInfoV2.project_name (access.py lines 425-444, a plain property): try
self._token at tenant; on success return that mapping with .get at name; on
KeyError fall back to self._user at tenantName, then to self._token at
tenantId, and finally to the implicit None.  Only KeyError is caught at each
stage. -/
def project_name (data : JVal) : Except PyErr JVal :=
  match _token data with
  | .error e => .error e
  | .ok tok =>
    match tok.subscript "tenant" with
    | .ok tenant_dict => tenant_dict.get "name"
    | .error .keyError =>
      (match (match _user data with
              | .ok u => u.subscript "tenantName"
              | .error e => .error e) with
       | .ok v => .ok v
       | .error .keyError =>
         (match tok.subscript "tenantId" with
          | .ok v => .ok v
          | .error .keyError => .ok .null
          | .error e => .error e)
       | .error e => .error e)
    | .error e => .error e

/-- AccessInfoV2._trust (access.py lines 454-456, a plain property): the value
of self._data at access, then trust; every lookup failure propagates. -/
def _trust (data : JVal) : Except PyErr JVal :=
  match data.subscript "access" with
  | .ok a => a.subscript "trust"
  | .error e => .error e

/-- AccessInfoV2.trust_scoped (access.py lines 462-464, a plain property with no
exception handling): bool of self._trust; a missing access.trust propagates its
KeyError. -/
def trust_scoped (data : JVal) : Except PyErr Bool :=
  match _trust data with
  | .ok t => .ok t.truthy
  | .error e => .error e

/-- AccessInfoV2.role_ids (access.py lines 409-411, a missingproperty).  The
source body is self.get("metadata", <empty mapping>).get("roles", []).  The
receiver self is the accessor object itself, not a mapping: AccessInfo (lines
59-358) and AccessInfoV2 (lines 361-528) define no attribute named get, so the
very first operation of the body raises AttributeError, regardless of the
payload.  missingproperty catches only KeyError, so the error propagates. -/
def role_ids (_data : JVal) : Except PyErr JVal :=
  missingproperty (.error .attributeError)

end AccessInfoV2

namespace AccessInfoV3

/-- AccessInfoV3._user (access.py lines 542-544, a plain property): the value of
self._data at token, then user; every lookup failure propagates. -/
def _user (data : JVal) : Except PyErr JVal :=
  match data.subscript "token" with
  | .ok t => t.subscript "user"
  | .error e => .error e

/-- AccessInfoV3.is_federated (access.py lines 546-548): membership test of the
key OS-FEDERATION in self._user. -/
def is_federated (data : JVal) : Except PyErr Bool :=
  match _user data with
  | .ok u => u.hasKey "OS-FEDERATION"
  | .error e => .error e

/-- AccessInfoV3.user_domain_id (access.py lines 562-569): try self._user at
domain, then id; on KeyError return None when is_federated, else re-raise the
KeyError.  Non-KeyError failures propagate directly. -/
def user_domain_id (data : JVal) : Except PyErr JVal :=
  match (match _user data with
         | .ok u =>
           (match u.subscript "domain" with
            | .ok d => d.subscript "id"
            | .error e => .error e)
         | .error e => .error e) with
  | .ok v => .ok v
  | .error .keyError =>
    (match is_federated data with
     | .ok true => .ok .null
     | .ok false => .error .keyError
     | .error e => .error e)
  | .error e => .error e

/-- AccessInfoV3.user_domain_name (access.py lines 571-578): same control flow
as user_domain_id with the name field. -/
def user_domain_name (data : JVal) : Except PyErr JVal :=
  match (match _user data with
         | .ok u =>
           (match u.subscript "domain" with
            | .ok d => d.subscript "name"
            | .error e => .error e)
         | .error e => .error e) with
  | .ok v => .ok v
  | .error .keyError =>
    (match is_federated data with
     | .ok true => .ok .null
     | .ok false => .error .keyError
     | .error e => .error e)
  | .error e => .error e

/-- AccessInfoV3._project (access.py lines 604-606, a plain property): the value
of self._data at token, then project; every lookup failure propagates. -/
def _project (data : JVal) : Except PyErr JVal :=
  match data.subscript "token" with
  | .ok t => t.subscript "project"
  | .error e => .error e

/-- AccessInfoV3.project_domain_id (access.py lines 612-614, a missingproperty):
self._project at domain, then id; a KeyError anywhere, including a missing
token.project, becomes None. -/
def project_domain_id (data : JVal) : Except PyErr JVal :=
  missingproperty
    (match _project data with
     | .ok p =>
       (match p.subscript "domain" with
        | .ok d => d.subscript "id"
        | .error e => .error e)
     | .error e => .error e)

/-- AccessInfoV3.project_domain_name (access.py lines 616-618, a plain property
with no exception handling): self._project at domain, then name; every lookup
failure propagates, including KeyError. -/
def project_domain_name (data : JVal) : Except PyErr JVal :=
  match _project data with
  | .ok p =>
    (match p.subscript "domain" with
     | .ok d => d.subscript "name"
     | .error e => .error e)
  | .error e => .error e

end AccessInfoV3

/-- A transport response as the factory uses it (access.py lines 33-38): a
JSON-decoded body, and the X-Subject-Token header value as returned by
resp.headers.get, with None when the header is absent. -/
structure Resp where
  json : JVal
  x_subject_token : JVal

/-- The two concrete accessor variants the factory can build, with the payload
body and the bearer-token value each constructor receives. -/
inductive AccessVariant where
  | v3 (body : JVal) (auth_token : JVal)
  | v2 (body : JVal) (auth_token : JVal)

/-- The factory create (access.py lines 31-44).  With a truthy response and a
falsy body the body is taken from the response JSON; a payload with top-level
key token builds AccessInfoV3, taking the bearer token from the
X-Subject-Token header when a response is given and no truthy explicit token
was; otherwise a payload with top-level key access builds AccessInfoV2; with
neither key, ValueError (message: Unrecognized auth response) is raised. -/
def create (resp : Option Resp) (body0 auth_token0 : JVal) :
    Except PyErr AccessVariant :=
  let body := match resp with
    | some r => if body0.truthy then body0 else r.json
    | none => body0
  match body.hasKey "token" with
  | .error e => .error e
  | .ok true =>
    let auth_token := match resp with
      | some r => if auth_token0.truthy then auth_token0 else r.x_subject_token
      | none => auth_token0
    .ok (.v3 body auth_token)
  | .ok false =>
    (match body.hasKey "access" with
     | .error e => .error e
     | .ok true => .ok (.v2 body auth_token0)
     | .ok false => .error .valueError)

/-- Modelled from the spec: the Catalog builder collaborator (the from_token
constructor of the service_catalog module, whose source is not part of this
repository snapshot).  Per the spec it is an external collaborator that, given
the RawPayload, "produces a catalog object"; only that construction contract is
used here, so the catalog is the object it yields for a given payload. -/
structure Catalog where
  built_from : JVal

/-- Modelled from the spec: invoking the Catalog builder collaborator on the raw
payload (self._service_catalog_class.from_token(self._data), access.py lines
76-77). -/
def from_token (data : JVal) : Catalog :=
  ⟨data⟩

/-- The mutable part of an accessor relevant to the lazy catalog: the stored
payload and the _service_catalog slot, initialised to None by the constructor
(access.py lines 68-71). -/
structure AccessInfoState where
  data : JVal
  service_catalog_cache : Option Catalog

/-- AccessInfo.__init__ (access.py lines 68-71): stores the body and sets the
_service_catalog slot to None. -/
def mkAccessInfo (data : JVal) : AccessInfoState :=
  ⟨data, none⟩

/-- AccessInfo.service_catalog (access.py lines 73-79): when the cached value is
falsy (None; a built catalog object is a plain Python object and hence truthy),
invoke the builder and store the result; return the stored value.  The result
triple is the returned catalog, the updated accessor state, and the number of
builder invocations this call performed. -/
def service_catalog : AccessInfoState → Catalog × AccessInfoState × Nat
  | ⟨data, none⟩ => (from_token data, ⟨data, some (from_token data)⟩, 1)
  | ⟨data, some c⟩ => (c, ⟨data, some c⟩, 0)

/-- A sequence of n successive service_catalog calls on one accessor: the list
of returned catalogs, the final accessor state, and the total number of builder
invocations. -/
def service_catalog_calls : Nat → AccessInfoState → List Catalog × AccessInfoState × Nat
  | 0, s => ([], s, 0)
  | n + 1, s =>
    let r := service_catalog s
    let rest := service_catalog_calls n r.2.1
    (r.1 :: rest.1, rest.2.1, r.2.2 + rest.2.2)

/-- STALE_TOKEN_DURATION (access.py line 28), in seconds. -/
def STALE_TOKEN_DURATION : Int := 30

/-- AccessInfo.will_expire_soon (access.py lines 81-95), with instants modelled
as integer seconds on the one UTC timeline that timeutils.normalize_time maps
every timezone-aware datetime onto: the stale duration defaults to
STALE_TOKEN_DURATION when None is passed, and the result is whether the
normalized expiry is strictly before now plus that duration. -/
def will_expire_soon (expires now : Int) (stale_duration : Option Int) : Bool :=
  let sd := match stale_duration with
    | none => STALE_TOKEN_DURATION
    | some s => s
  decide (expires < now + sd)

/-- Helper: once the catalog slot is filled, any number of further
service_catalog calls return the stored catalog and never invoke the builder. -/
theorem service_catalog_calls_cached (n : Nat) (data : JVal) (c : Catalog) :
    service_catalog_calls n ⟨data, some c⟩ = (List.replicate n c, ⟨data, some c⟩, 0) := by
  induction n with
  | zero => rfl
  | succ k ih => simp [service_catalog_calls, service_catalog, ih, List.replicate]

/-- C1: for a payload mapping, the factory builds the newer-schema accessor
AccessInfoV3 when the top-level key token is present; when token is absent but
access is present it builds the older-schema accessor AccessInfoV2; and when
neither key is present it fails with ValueError, the unrecognized-payload
error, instead of returning an accessor. -/
theorem C1_factory_schema_dispatch (m : List (String × JVal)) (tok : JVal) :
    ((m.lookup "token").isSome = true →
      create none (.dict m) tok = .ok (.v3 (.dict m) tok)) ∧
    ((m.lookup "token").isSome = false → (m.lookup "access").isSome = true →
      create none (.dict m) tok = .ok (.v2 (.dict m) tok)) ∧
    ((m.lookup "token").isSome = false → (m.lookup "access").isSome = false →
      create none (.dict m) tok = .error .valueError) := by
  refine ⟨fun h1 => ?_, fun h1 h2 => ?_, fun h1 h2 => ?_⟩
  · simp [create, JVal.hasKey, h1]
  · simp [create, JVal.hasKey, h1, h2]
  · simp [create, JVal.hasKey, h1, h2]

/-- Witness for C1 at concrete payloads: one with key token, one with key
access only, one with neither. -/
theorem C1_factory_schema_dispatch_witness :
    create none (.dict [("token", .dict [])]) .null =
      .ok (.v3 (.dict [("token", .dict [])]) .null) ∧
    create none (.dict [("access", .dict [])]) .null =
      .ok (.v2 (.dict [("access", .dict [])]) .null) ∧
    create none (.dict [("other", .null)]) .null = .error .valueError :=
  ⟨(C1_factory_schema_dispatch [("token", .dict [])] .null).1 rfl,
   (C1_factory_schema_dispatch [("access", .dict [])] .null).2.1 rfl rfl,
   (C1_factory_schema_dispatch [("other", .null)] .null).2.2 rfl rfl⟩

/-- C10: a payload mapping holding both schema-distinguishing top-level keys,
token and access, makes the factory build the newer-schema accessor
AccessInfoV3: the token check runs first and the access branch of the factory
is never reached. -/
theorem C10_both_keys_builds_v3 (m : List (String × JVal)) (tok : JVal)
    (h1 : (m.lookup "token").isSome = true)
    (_h2 : (m.lookup "access").isSome = true) :
    create none (.dict m) tok = .ok (.v3 (.dict m) tok) := by
  simp [create, JVal.hasKey, h1]

/-- Witness for C10 at a concrete payload holding both keys. -/
theorem C10_both_keys_builds_v3_witness :
    create none (.dict [("access", .dict []), ("token", .dict [])]) .null =
      .ok (.v3 (.dict [("access", .dict []), ("token", .dict [])]) .null) :=
  C10_both_keys_builds_v3 [("access", .dict []), ("token", .dict [])] .null rfl rfl

/-- C9: with the default 30 second stale window, will_expire_soon holds exactly
when the normalized expiry instant is strictly before the current instant plus
the window; in particular an expiry 10 seconds ahead gives true and one 60
seconds ahead gives false. -/
theorem C9_will_expire_soon_strict_window (expires now : Int) :
    (will_expire_soon expires now none = true ↔ expires < now + 30) ∧
    will_expire_soon (now + 10) now none = true ∧
    will_expire_soon (now + 60) now none = false := by
  refine ⟨?_, ?_, ?_⟩ <;> simp [will_expire_soon, STALE_TOKEN_DURATION]

/-- C8: starting from a freshly constructed accessor, any positive number of
successive service_catalog calls all return the one catalog the builder
produced from the stored payload, the cache slot ends up holding exactly that
catalog, and the builder is invoked exactly once in total: the first call
builds, every later call returns the cached result. -/
theorem C8_service_catalog_single_build (data : JVal) (n : Nat) (h : 1 ≤ n) :
    service_catalog_calls n (mkAccessInfo data) =
      (List.replicate n (from_token data), ⟨data, some (from_token data)⟩, 1) := by
  obtain ⟨k, rfl⟩ : ∃ k, n = k + 1 := ⟨n - 1, by omega⟩
  simp [service_catalog_calls, mkAccessInfo, service_catalog,
        service_catalog_calls_cached, List.replicate]

/-- Witness for C8: two calls on one fresh accessor return the same catalog
twice with one builder invocation. -/
theorem C8_service_catalog_single_build_witness :
    service_catalog_calls 2 (mkAccessInfo (.dict [])) =
      (List.replicate 2 (from_token (.dict [])),
       ⟨.dict [], some (from_token (.dict []))⟩, 1) :=
  C8_service_catalog_single_build (.dict []) 2 (by decide)

/-- Counterexample to C2 as stated: on a newer-schema payload whose
token.project subtree is present but holds no domain subtree,
project_domain_id yields None instead of the claimed hard error, and
project_domain_name raises KeyError instead of the claimed absent value.  The
claim has the soft and hard roles of the two accessors swapped. -/
theorem C2_counterexample_swapped_roles :
    AccessInfoV3.project_domain_id
      (.dict [("token", .dict [("project", .dict [("name", .str "p")])])]) = .ok .null ∧
    AccessInfoV3.project_domain_name
      (.dict [("token", .dict [("project", .dict [("name", .str "p")])])]) =
      .error .keyError :=
  ⟨rfl, rfl⟩

/-- C2 (amended): for the newer-schema variant, when the token.project subtree
is present, project_domain_id yields an absent/null value (never an error)
when the project.domain.id path is missing, while project_domain_name
propagates a missing project.domain.name path as a hard KeyError. -/
theorem C2_project_domain_id_soft_name_hard (tm pm : List (String × JVal))
    (hp : tm.lookup "project" = some (.dict pm)) :
    (pm.lookup "domain" = none →
      AccessInfoV3.project_domain_id (.dict [("token", .dict tm)]) = .ok .null ∧
      AccessInfoV3.project_domain_name (.dict [("token", .dict tm)]) = .error .keyError) ∧
    (∀ dm, pm.lookup "domain" = some (.dict dm) →
      (dm.lookup "id" = none →
        AccessInfoV3.project_domain_id (.dict [("token", .dict tm)]) = .ok .null) ∧
      (dm.lookup "name" = none →
        AccessInfoV3.project_domain_name (.dict [("token", .dict tm)]) = .error .keyError)) := by
  constructor
  · intro h
    constructor
    · simp [AccessInfoV3.project_domain_id, AccessInfoV3._project, missingproperty,
            JVal.subscript, List.lookup, hp, h]
    · simp [AccessInfoV3.project_domain_name, AccessInfoV3._project,
            JVal.subscript, List.lookup, hp, h]
  · intro dm hdm
    constructor
    · intro h
      simp [AccessInfoV3.project_domain_id, AccessInfoV3._project, missingproperty,
            JVal.subscript, List.lookup, hp, hdm, h]
    · intro h
      simp [AccessInfoV3.project_domain_name, AccessInfoV3._project,
            JVal.subscript, List.lookup, hp, hdm, h]

/-- Witness for amended C2 at a concrete payload whose project subtree is the
empty mapping. -/
theorem C2_project_domain_id_soft_name_hard_witness :
    AccessInfoV3.project_domain_id
      (.dict [("token", .dict [("project", .dict [])])]) = .ok .null ∧
    AccessInfoV3.project_domain_name
      (.dict [("token", .dict [("project", .dict [])])]) = .error .keyError :=
  (C2_project_domain_id_soft_name_hard [("project", .dict [])] [] rfl).1 rfl

/-- Counterexample to C3 as stated: on an older-schema payload whose access
subtree holds no trust key, trust_scoped raises KeyError instead of returning
false without error. -/
theorem C3_counterexample_missing_trust_raises :
    AccessInfoV2.trust_scoped (.dict [("access", .dict [])]) = .error .keyError :=
  rfl

/-- C3 (amended): for every older-schema payload, trust_scoped returns true
exactly when the access.trust subtree is present and truthy (for a mapping:
non-empty); when the subtree is absent, the accessor propagates the KeyError
of the lookup instead of returning false. -/
theorem C3_trust_scoped_truthiness (am : List (String × JVal)) :
    (∀ t, am.lookup "trust" = some t →
      AccessInfoV2.trust_scoped (.dict [("access", .dict am)]) = .ok t.truthy) ∧
    (am.lookup "trust" = none →
      AccessInfoV2.trust_scoped (.dict [("access", .dict am)]) = .error .keyError) := by
  constructor
  · intro t ht
    simp [AccessInfoV2.trust_scoped, AccessInfoV2._trust, JVal.subscript, List.lookup, ht]
  · intro h
    simp [AccessInfoV2.trust_scoped, AccessInfoV2._trust, JVal.subscript, List.lookup, h]

/-- Witness for amended C3: a present non-empty trust subtree gives true, an
absent one gives the KeyError. -/
theorem C3_trust_scoped_truthiness_witness :
    AccessInfoV2.trust_scoped
      (.dict [("access", .dict [("trust", .dict [("id", .str "t")])])]) = .ok true ∧
    AccessInfoV2.trust_scoped
      (.dict [("access", .dict [("user", .dict [])])]) = .error .keyError :=
  ⟨(C3_trust_scoped_truthiness [("trust", .dict [("id", .str "t")])]).1
      (.dict [("id", .str "t")]) rfl,
   (C3_trust_scoped_truthiness [("user", .dict [])]).2 rfl⟩

/-- C4: evaluating role_ids of the older-schema variant on a well-formed
payload that stores role identifiers under metadata.roles raises
AttributeError instead of returning the stored list: the property body calls
the nonexistent method get on the accessor object itself, a leftover from a
design in which the accessor was itself a mapping. -/
theorem C4_role_ids_always_attribute_error :
    AccessInfoV2.role_ids
      (.dict [("access",
        .dict [("metadata", .dict [("roles", .list [.str "admin"])])])]) =
      .error .attributeError :=
  rfl

/-- Counterexample to C5 as stated: with no explicit bearer token, on a payload
holding both an access.token.id value T and a nested access.token.token.id
value U, auth_token returns T, not the claimed path access.token.token.id; and
on a payload missing the path entirely it returns None instead of the claimed
hard error. -/
theorem C5_counterexample_path_and_softness :
    AccessInfoV2.auth_token
      (.dict [("access", .dict [("token",
        .dict [("id", .str "T"), ("token", .dict [("id", .str "U")])])])]) .null =
      .ok (.str "T") ∧
    AccessInfoV2.auth_token (.dict [("access", .dict [])]) .null = .ok .null :=
  ⟨rfl, rfl⟩

/-- C5 (amended): for the older-schema variant, auth_token returns the
explicitly supplied bearer-token value when a truthy one was given at
construction; otherwise it returns the value at path access.token.id, and a
missing path yields an absent/null value (the lookup is softened by
missingproperty) rather than a hard error. -/
theorem C5_auth_token_explicit_else_token_id (set_token : JVal)
    (am tm : List (String × JVal)) :
    (set_token.truthy = true →
      ∀ data, AccessInfoV2.auth_token data set_token = .ok set_token) ∧
    (set_token.truthy = false →
      ((∀ v, am.lookup "token" = some (.dict tm) → tm.lookup "id" = some v →
        AccessInfoV2.auth_token (.dict [("access", .dict am)]) set_token = .ok v) ∧
      (am.lookup "token" = none →
        AccessInfoV2.auth_token (.dict [("access", .dict am)]) set_token = .ok .null) ∧
      (am.lookup "token" = some (.dict tm) → tm.lookup "id" = none →
        AccessInfoV2.auth_token (.dict [("access", .dict am)]) set_token = .ok .null))) := by
  constructor
  · intro h data
    simp [AccessInfoV2.auth_token, missingproperty, h]
  · intro h
    refine ⟨fun v h1 h2 => ?_, fun h1 => ?_, fun h1 h2 => ?_⟩
    · simp [AccessInfoV2.auth_token, missingproperty, JVal.subscript, List.lookup, h, h1, h2]
    · simp [AccessInfoV2.auth_token, missingproperty, JVal.subscript, List.lookup, h, h1]
    · simp [AccessInfoV2.auth_token, missingproperty, JVal.subscript, List.lookup, h, h1, h2]

/-- Witness for amended C5: a supplied explicit token wins, a stored
access.token.id is used as fallback, and a missing id yields None. -/
theorem C5_auth_token_explicit_else_token_id_witness :
    AccessInfoV2.auth_token .null (.str "S") = .ok (.str "S") ∧
    AccessInfoV2.auth_token
      (.dict [("access", .dict [("token", .dict [("id", .str "T")])])]) .null =
      .ok (.str "T") ∧
    AccessInfoV2.auth_token
      (.dict [("access", .dict [("token", .dict [])])]) .null = .ok .null :=
  ⟨(C5_auth_token_explicit_else_token_id (.str "S") [] []).1 rfl .null,
   ((C5_auth_token_explicit_else_token_id .null
      [("token", .dict [("id", .str "T")])] [("id", .str "T")]).2 rfl).1
      (.str "T") rfl rfl,
   ((C5_auth_token_explicit_else_token_id .null
      [("token", .dict [])] []).2 rfl).2.2 rfl rfl⟩

/-- Counterexample to C6 as stated: when token.tenant is present but has no
name, project_name is None without consulting user.tenantName, although the
claimed ordered fallback would here return B; and when the access.token
subtree itself is absent, project_name raises TypeError (the softened token
property returns None, which the tenant lookup then subscripts) instead of
falling back to user.tenantName. -/
theorem C6_counterexample_fallback :
    AccessInfoV2.project_name
      (.dict [("access", .dict [("token", .dict [("tenant", .dict [])]),
        ("user", .dict [("tenantName", .str "B")])])]) = .ok .null ∧
    AccessInfoV2.project_name
      (.dict [("access", .dict [("user", .dict [("tenantName", .str "B")])])]) =
      .error .typeError :=
  ⟨rfl, rfl⟩

/-- C6 (amended): for an older-schema payload whose access.token subtree is
present, project_name resolves as follows: when token.tenant is present, the
result is the name value of that tenant mapping, absent when the tenant
mapping has no name, with no further fallback; only when the tenant key is
absent does it fall back to user.tenantName and then to token.tenantId, and it
is absent when both are missing (whether the user subtree is present or not).
When the access.token subtree itself is absent the accessor raises a
TypeError instead of returning an absent value. -/
theorem C6_project_name_fallback_order (am tokm : List (String × JVal)) :
    (∀ tm, am.lookup "token" = some (.dict tokm) →
      tokm.lookup "tenant" = some (.dict tm) →
      AccessInfoV2.project_name (.dict [("access", .dict am)]) =
        .ok ((tm.lookup "name").getD .null)) ∧
    (∀ um v, am.lookup "token" = some (.dict tokm) → tokm.lookup "tenant" = none →
      am.lookup "user" = some (.dict um) → um.lookup "tenantName" = some v →
      AccessInfoV2.project_name (.dict [("access", .dict am)]) = .ok v) ∧
    (∀ um w, am.lookup "token" = some (.dict tokm) → tokm.lookup "tenant" = none →
      am.lookup "user" = some (.dict um) → um.lookup "tenantName" = none →
      tokm.lookup "tenantId" = some w →
      AccessInfoV2.project_name (.dict [("access", .dict am)]) = .ok w) ∧
    (∀ um, am.lookup "token" = some (.dict tokm) → tokm.lookup "tenant" = none →
      am.lookup "user" = some (.dict um) → um.lookup "tenantName" = none →
      tokm.lookup "tenantId" = none →
      AccessInfoV2.project_name (.dict [("access", .dict am)]) = .ok .null) ∧
    (∀ w, am.lookup "token" = some (.dict tokm) → tokm.lookup "tenant" = none →
      am.lookup "user" = none → tokm.lookup "tenantId" = some w →
      AccessInfoV2.project_name (.dict [("access", .dict am)]) = .ok w) ∧
    (am.lookup "token" = some (.dict tokm) → tokm.lookup "tenant" = none →
      am.lookup "user" = none → tokm.lookup "tenantId" = none →
      AccessInfoV2.project_name (.dict [("access", .dict am)]) = .ok .null) ∧
    (am.lookup "token" = none →
      AccessInfoV2.project_name (.dict [("access", .dict am)]) = .error .typeError) := by
  refine ⟨fun tm h1 h2 => ?_, fun um v h1 h2 h3 h4 => ?_, fun um w h1 h2 h3 h4 h5 => ?_,
          fun um h1 h2 h3 h4 h5 => ?_, fun w h1 h2 h3 h4 => ?_, fun h1 h2 h3 h4 => ?_,
          fun h1 => ?_⟩
  · simp [AccessInfoV2.project_name, AccessInfoV2._token, AccessInfoV2._user, missingproperty,
          JVal.subscript, JVal.get, List.lookup, h1, h2]
  · simp [AccessInfoV2.project_name, AccessInfoV2._token, AccessInfoV2._user, missingproperty,
          JVal.subscript, JVal.get, List.lookup, h1, h2, h3, h4]
  · simp [AccessInfoV2.project_name, AccessInfoV2._token, AccessInfoV2._user, missingproperty,
          JVal.subscript, JVal.get, List.lookup, h1, h2, h3, h4, h5]
  · simp [AccessInfoV2.project_name, AccessInfoV2._token, AccessInfoV2._user, missingproperty,
          JVal.subscript, JVal.get, List.lookup, h1, h2, h3, h4, h5]
  · simp [AccessInfoV2.project_name, AccessInfoV2._token, AccessInfoV2._user, missingproperty,
          JVal.subscript, JVal.get, List.lookup, h1, h2, h3, h4]
  · simp [AccessInfoV2.project_name, AccessInfoV2._token, AccessInfoV2._user, missingproperty,
          JVal.subscript, JVal.get, List.lookup, h1, h2, h3, h4]
  · simp [AccessInfoV2.project_name, AccessInfoV2._token, AccessInfoV2._user, missingproperty,
          JVal.subscript, JVal.get, List.lookup, h1]

/-- Witness for amended C6, following the chain of the testable properties of
the spec: tenant name A wins; without a tenant subtree user.tenantName B is
used; without that, token.tenantId X is used; with none of the three the
result is absent. -/
theorem C6_project_name_fallback_order_witness :
    AccessInfoV2.project_name
      (.dict [("access", .dict [("token",
        .dict [("tenant", .dict [("name", .str "A")])])])]) = .ok (.str "A") ∧
    AccessInfoV2.project_name
      (.dict [("access", .dict [("token", .dict []),
        ("user", .dict [("tenantName", .str "B")])])]) = .ok (.str "B") ∧
    AccessInfoV2.project_name
      (.dict [("access", .dict [("token", .dict [("tenantId", .str "X")]),
        ("user", .dict [])])]) = .ok (.str "X") ∧
    AccessInfoV2.project_name
      (.dict [("access", .dict [("token", .dict []), ("user", .dict [])])]) =
      .ok .null :=
  ⟨(C6_project_name_fallback_order [("token",
      .dict [("tenant", .dict [("name", .str "A")])])]
      [("tenant", .dict [("name", .str "A")])]).1
      [("name", .str "A")] rfl rfl,
   (C6_project_name_fallback_order [("token", .dict []),
      ("user", .dict [("tenantName", .str "B")])] []).2.1
      [("tenantName", .str "B")] (.str "B") rfl rfl rfl rfl,
   (C6_project_name_fallback_order [("token", .dict [("tenantId", .str "X")]),
      ("user", .dict [])] [("tenantId", .str "X")]).2.2.1
      [] (.str "X") rfl rfl rfl rfl rfl,
   (C6_project_name_fallback_order [("token", .dict []),
      ("user", .dict [])] []).2.2.2.1 [] rfl rfl rfl rfl rfl⟩

/-- C7: on a newer-schema payload whose user mapping has no domain subtree,
user_domain_id and user_domain_name yield an absent/null value when the
federation marker OS-FEDERATION is present in the user mapping, and propagate
the KeyError as a hard error when it is not. -/
theorem C7_user_domain_federated_soft_else_hard (um : List (String × JVal))
    (hd : um.lookup "domain" = none) :
    ((um.lookup "OS-FEDERATION").isSome = true →
      AccessInfoV3.user_domain_id
        (.dict [("token", .dict [("user", .dict um)])]) = .ok .null ∧
      AccessInfoV3.user_domain_name
        (.dict [("token", .dict [("user", .dict um)])]) = .ok .null) ∧
    ((um.lookup "OS-FEDERATION").isSome = false →
      AccessInfoV3.user_domain_id
        (.dict [("token", .dict [("user", .dict um)])]) = .error .keyError ∧
      AccessInfoV3.user_domain_name
        (.dict [("token", .dict [("user", .dict um)])]) = .error .keyError) := by
  constructor <;> intro h <;> constructor <;>
    simp [AccessInfoV3.user_domain_id, AccessInfoV3.user_domain_name, AccessInfoV3.is_federated,
          AccessInfoV3._user, JVal.subscript, JVal.hasKey, List.lookup, hd, h]

/-- Witness for C7: with the federation marker and no domain subtree the id is
absent; without the marker the lookup raises. -/
theorem C7_user_domain_federated_soft_else_hard_witness :
    AccessInfoV3.user_domain_id
      (.dict [("token", .dict [("user",
        .dict [("OS-FEDERATION", .dict [("groups", .list [])])])])]) = .ok .null ∧
    AccessInfoV3.user_domain_id
      (.dict [("token", .dict [("user", .dict [("id", .str "u")])])]) =
      .error .keyError :=
  ⟨((C7_user_domain_federated_soft_else_hard
      [("OS-FEDERATION", .dict [("groups", .list [])])] rfl).1 rfl).1,
   ((C7_user_domain_federated_soft_else_hard [("id", .str "u")] rfl).2 rfl).1⟩

end Keystoneauth
